import Mathlib

/-!
Verification development for the STL-to-video rendering pipeline
(`src/config.py`, `src/database/db_manager.py`, `src/main.py`,
`src/rendering/blender_renderer.py`, `src/rendering/color_manager.py`,
`src/rendering/video_compositor.py`).

Every definition below is a shallow embedding translated directly from the
Python source.  Machine-level concerns (sqlite connections, subprocesses,
the filesystem, ffmpeg) are abstracted into explicit state and outcome
parameters; all arithmetic the claims depend on (integer division for the
orbit planner, exact HSV/RGB conversion formulas from `colorsys`) is kept
exact over `Nat` / `Int` / `Rat`.
-/

/- ================= src/config.py ================= -/

/-- From src/config.py: `VIDEO_DURATION = 5  # seconds`. -/
def VIDEO_DURATION : Nat := 5

/-- From src/config.py: `FPS = 10  # frames per second`. -/
def FPS : Nat := 10

/-- From src/config.py: `TOTAL_FRAMES = VIDEO_DURATION * FPS  # 750 frames`
(the comment text is part of the claim C10 record; the value is the product). -/
def TOTAL_FRAMES : Nat := VIDEO_DURATION * FPS

/-- From src/config.py: `VIDEO_WIDTH = 640`. -/
def VIDEO_WIDTH : Nat := 640

/-- From src/config.py: `VIDEO_HEIGHT = 740`. -/
def VIDEO_HEIGHT : Nat := 740

/- ========= src/rendering/blender_renderer.py : animate_camera_orbit ========= -/

/-- One `keyframe_insert` call on the orbit empty: frame number plus the
rotation euler at that keyframe.  The source stores `math.radians` of whole
degree counts (multiples of 60, and 360 for the final pin); we track the
degree counts themselves, which determine the radian values exactly. -/
structure Keyframe where
  frame : Nat
  x : Nat
  y : Nat
  z : Nat
deriving DecidableEq, Repr

/-- Shallow embedding of `BlenderRenderer.animate_camera_orbit`
(src/rendering/blender_renderer.py lines 196-319): the ordered list of
`keyframe_insert` calls it performs on the orbit empty.  The straight-line
cumulative updates of the source are mirrored by the `let` chain:
`frames_per_segment = total_frames // 6`, 60 degrees added per listed axis
per segment, and a final keyframe forced to `(total_frames, 360, 360, 360)`. -/
def animate_camera_orbit (total_frames : Nat) : List Keyframe :=
  let frames_per_segment := total_frames / 6
  let rotation_amount := 60
  -- SEGMENT 0: starting position (frame 1), no rotation yet
  let k0 : Keyframe := ⟨1, 0, 0, 0⟩
  -- SEGMENT 1: rotate around Z axis
  let z1 := 0 + rotation_amount
  let k1 : Keyframe := ⟨frames_per_segment * 1, 0, 0, z1⟩
  -- SEGMENT 2: rotate around X and Z axes
  let x2 := 0 + rotation_amount
  let z2 := z1 + rotation_amount
  let k2 : Keyframe := ⟨frames_per_segment * 2, x2, 0, z2⟩
  -- SEGMENT 3: rotate around X axis
  let x3 := x2 + rotation_amount
  let k3 : Keyframe := ⟨frames_per_segment * 3, x3, 0, z2⟩
  -- SEGMENT 4: rotate around X and Y axes
  let x4 := x3 + rotation_amount
  let y4 := 0 + rotation_amount
  let k4 : Keyframe := ⟨frames_per_segment * 4, x4, y4, z2⟩
  -- SEGMENT 5: rotate around Y axis
  let y5 := y4 + rotation_amount
  let k5 : Keyframe := ⟨frames_per_segment * 5, x4, y5, z2⟩
  -- SEGMENT 6: rotate around Y and Z axes
  let y6 := y5 + rotation_amount
  let z6 := z2 + rotation_amount
  let k6 : Keyframe := ⟨frames_per_segment * 6, x4, y6, z6⟩
  -- FINAL POSITION: frame = total_frames, full 360 on every axis
  let k7 : Keyframe := ⟨total_frames, 360, 360, 360⟩
  [k0, k1, k2, k3, k4, k5, k6, k7]

/-- The distinct frames that actually hold a keyframe after all
`keyframe_insert` calls: inserting at an already-keyed frame overwrites
that key, so the stored set is the set of emitted frame numbers. -/
def orbit_keyed_frames (total_frames : Nat) : Finset Nat :=
  ((animate_camera_orbit total_frames).map Keyframe.frame).toFinset

/- ================= src/database/db_manager.py ================= -/

/-- One row of the `stl_files` table (src/database/db_manager.py lines 21-30):
`id INTEGER PRIMARY KEY AUTOINCREMENT, filename TEXT UNIQUE NOT NULL,
filepath TEXT NOT NULL, added_date TIMESTAMP DEFAULT CURRENT_TIMESTAMP,
file_size INTEGER, status TEXT DEFAULT 'pending'`.  Timestamps are
abstracted to natural numbers. -/
structure StlFile where
  id : Nat
  filename : String
  filepath : String
  added_date : Nat
  file_size : Nat
  status : String
deriving DecidableEq, Repr

/-- One row of the `render_jobs` table (src/database/db_manager.py lines
33-46).  `stl_file_id` is nullable in the schema, hence `Option Nat`.
Colors are stored as JSON text in the source, kept as opaque strings. -/
structure RenderJob where
  id : Nat
  stl_file_id : Option Nat
  output_path : Option String
  object_color : String
  background_color : String
  render_date : Option Nat
  render_duration : Option Rat
  status : String
  error_message : Option String
deriving DecidableEq, Repr

/-- The persistent store: the two tables in rowid order plus the
AUTOINCREMENT counters for their primary keys. -/
structure Db where
  files : List StlFile
  jobs : List RenderJob
  next_file_id : Nat
  next_job_id : Nat
deriving DecidableEq, Repr

/-- Modelled from the spec: section 7 names a `StorageError` for datastore
read/write failures (unknown id, unreadable path).  The source files define
no such exception class; the type exists so that the outcome of store
operations can be stated. -/
inductive StorageError where
  | unknownJobId (job_id : Nat)
  | unreadablePath (path : String)
deriving DecidableEq, Repr

/-- Shallow embedding of `DatabaseManager.add_stl_file` (lines 50-67):
`INSERT OR IGNORE` keyed by the UNIQUE `filename` column, then
`SELECT id ... WHERE filename = ?` and return `result[0] if result else
None`.  The source derives `filename = filepath.name` and
`file_size = filepath.stat().st_size` at call time; the embedding takes
those two values (and the insertion timestamp) as arguments. -/
def add_stl_file (db : Db) (filename filepath : String) (file_size now : Nat) :
    Db × Option Nat :=
  let db1 :=
    if db.files.any (fun f => f.filename = filename) then db
    else { db with
      files := db.files ++ [⟨db.next_file_id, filename, filepath, now, file_size, "pending"⟩],
      next_file_id := db.next_file_id + 1 }
  (db1, (db1.files.find? (fun f => f.filename = filename)).map (fun f => f.id))

/-- The rows produced by the query in `get_pending_files` before any LIMIT:
`SELECT * FROM stl_files WHERE status = 'pending' ORDER BY added_date ASC`. -/
def pending_rows (db : Db) : List StlFile :=
  List.insertionSort (fun a b => a.added_date ≤ b.added_date)
    (db.files.filter (fun f => f.status = "pending"))

/-- Shallow embedding of `DatabaseManager.get_pending_files` (lines 69-85).
The LIMIT clause is appended only under Python truthiness (`if limit:`), so
a supplied limit of 0 adds no clause; SQLite treats a negative LIMIT as
unbounded. -/
def get_pending_files (db : Db) (limit : Option Int) : List StlFile :=
  let rows := pending_rows db
  match limit with
  | none => rows
  | some n => if n = 0 then rows else if n < 0 then rows else rows.take n.toNat

/-- Shallow embedding of `DatabaseManager.create_render_job` (lines 87-103):
inserts a new pending job and returns `cursor.lastrowid`. -/
def create_render_job (db : Db) (stl_file_id : Option Nat)
    (object_color background_color : String) : Db × Nat :=
  ({ db with
      jobs := db.jobs ++
        [⟨db.next_job_id, stl_file_id, none, object_color, background_color,
          none, none, "pending", none⟩],
      next_job_id := db.next_job_id + 1 },
   db.next_job_id)

/-- The state transformation performed by `DatabaseManager.update_render_job`
(lines 105-132): `UPDATE render_jobs SET ... WHERE id = ?` touches every job
row whose id matches (none, if the id is unknown); then, only when
`status == 'completed'`, `UPDATE stl_files SET status='completed' WHERE id =
(SELECT stl_file_id FROM render_jobs WHERE id = ?)` — the subquery reads the
already-updated jobs table, and a NULL subquery result matches no file row. -/
def update_render_job_apply (db : Db) (job_id : Nat) (status : String)
    (output_path : Option String) (render_duration : Option Rat)
    (error_message : Option String) (now : Nat) : Db :=
  let jobs1 := db.jobs.map (fun j =>
    if j.id = job_id then
      { j with status := status, output_path := output_path,
               render_date := some now, render_duration := render_duration,
               error_message := error_message }
    else j)
  let files1 :=
    if status = "completed" then
      match (jobs1.find? (fun j => j.id = job_id)).bind (fun j => j.stl_file_id) with
      | none => db.files
      | some fid => db.files.map (fun f =>
          if f.id = fid then { f with status := "completed" } else f)
    else db.files
  { db with jobs := jobs1, files := files1 }

/-- Call outcome of `DatabaseManager.update_render_job`: the method returns
`None` and contains no `raise`; an UPDATE whose WHERE clause matches no row
is not an error in sqlite, so no execution path of the source produces a
`StorageError` — every call completes with the state transformation above. -/
def update_render_job (db : Db) (job_id : Nat) (status : String)
    (output_path : Option String) (render_duration : Option Rat)
    (error_message : Option String) (now : Nat) : Except StorageError Db :=
  Except.ok (update_render_job_apply db job_id status output_path
    render_duration error_message now)

/- ================= src/main.py : RenderPipeline ================= -/

/-- Outcome of one delegated lifecycle stage (Blender render subprocess,
frame-to-video assembly, audio muxing): either it succeeds, or it raises an
exception whose text `str(e)` is the message the orchestrator captures. -/
inductive StageOutcome where
  | ok
  | fail (msg : String)
deriving DecidableEq, Repr

/-- The behaviour of the three external collaborator stages for one file:
this is the environment `render_single_file` runs against. -/
structure FileRun where
  render_step : StageOutcome
  composite_step : StageOutcome
  mux_step : StageOutcome
deriving DecidableEq, Repr

/-- The message of the first failing stage, if any — the `str(e)` the
`except` clause in `render_single_file` would capture. -/
def first_failure (run : FileRun) : Option String :=
  match run.render_step with
  | .fail m => some m
  | .ok =>
    match run.composite_step with
    | .fail m => some m
    | .ok =>
      match run.mux_step with
      | .fail m => some m
      | .ok => none

/-- The input-file data `render_single_file` uses: `stl_path.name`,
`str(stl_path)`, `stl_path.stem` and the byte size read by
`add_stl_file`. -/
structure FileInput where
  filename : String
  filepath : String
  stem : String
  size : Nat
deriving DecidableEq, Repr

/-- Shallow embedding of `RenderPipeline.render_single_file` (src/main.py
lines 42-166).  After registering the file and creating the job record, the
body runs the render, compositing and audio-muxing stages inside one
`try` block; the first exception is caught at the method boundary, the job
is updated to `failed` with `error_message=str(e)` (the job id is bound by
then, so the `'job_id' in locals()` guard passes), and `None` is returned.
On success the job is updated to `completed` with the output path
`<stem>.mp4` and the elapsed duration, and that path is returned. -/
def render_single_file (db : Db) (inp : FileInput)
    (object_color background_color : String) (run : FileRun)
    (now : Nat) (dur : Rat) : Db × Option String :=
  let r1 := add_stl_file db inp.filename inp.filepath inp.size now
  let r2 := create_render_job r1.1 r1.2 object_color background_color
  let db2 := r2.1
  let job_id := r2.2
  match first_failure run with
  | some msg =>
      (update_render_job_apply db2 job_id "failed" none none (some msg) now, none)
  | none =>
      let output_video := inp.stem ++ ".mp4"
      (update_render_job_apply db2 job_id "completed" (some output_video)
        (some dur) none now, some output_video)

/-- Builds the `FileInput` that `process_queue` hands to
`render_single_file` from a pending row (`stl_path = Path(file_data
['filepath'])`; the stem string only feeds the output-video name). -/
def file_input_of_row (f : StlFile) : FileInput :=
  ⟨f.filename, f.filepath, f.filename, f.file_size⟩

/-- One iteration of the loop body in `RenderPipeline.process_queue`:
process the pending row with `render_single_file` and bump the success
count when the result is non-`None`. -/
def process_step (env : String → FileRun) (pal : String → String × String)
    (now : Nat) (dur : Rat) (acc : Db × Nat) (f : StlFile) : Db × Nat :=
  let colors := pal f.filepath
  let r := render_single_file acc.1 (file_input_of_row f)
    colors.1 colors.2 (env f.filepath) now dur
  (r.1, acc.2 + if r.2.isSome then 1 else 0)

/-- Shallow embedding of `RenderPipeline.process_queue` (src/main.py lines
197-223): read the pending rows once (bounded by the optional limit), then
process each in order with `render_single_file`, counting the successful
(non-`None`) results.  The per-file collaborator behaviour and palette are
supplied as environments keyed by the file path. -/
def process_queue (db : Db) (limit : Option Int)
    (env : String → FileRun) (pal : String → String × String)
    (now : Nat) (dur : Rat) : Db × Nat :=
  let pending := get_pending_files db limit
  pending.foldl (process_step env pal now dur) (db, 0)

/- ========== src/rendering/video_compositor.py : add_random_audio ========== -/

/-- What `add_random_audio` did to produce its returned path: a verbatim
`shutil.copy` of the silent video, or an ffmpeg mux with a chosen audio
file. -/
inductive MuxOutcome where
  | copied (src dst : String)
  | muxed (audio dst : String)
deriving DecidableEq, Repr

/-- Shallow embedding of `VideoCompositor.add_random_audio`
(src/rendering/video_compositor.py lines 72-127).  `listing` is the
directory listing of `audio_dir`; the three `glob` calls collect files by
extension in mp3, wav, m4a order.  If none exist the silent video is copied
verbatim to `output_path` and that path is returned (no error).  Otherwise
`random.choice` (modelled by the index `pick`) selects a track and the
ffmpeg invocation outcome `ffmpeg_run` decides between the muxed result and
the re-raised error. -/
def add_random_audio (video_path output_path : String) (listing : List String)
    (pick : Nat) (ffmpeg_run : Except String Unit) :
    Except String (String × MuxOutcome) :=
  let audio_files :=
    (listing.filter (fun f => f.endsWith ".mp3")) ++
    (listing.filter (fun f => f.endsWith ".wav")) ++
    (listing.filter (fun f => f.endsWith ".m4a"))
  if audio_files.isEmpty then
    Except.ok (output_path, MuxOutcome.copied video_path output_path)
  else
    let selected := audio_files.getD (pick % audio_files.length) video_path
    match ffmpeg_run with
    | .error e => .error e
    | .ok _ => .ok (output_path, MuxOutcome.muxed selected output_path)

/- ========== src/rendering/color_manager.py : generate_contrasting_color ========== -/

/-- Python `int()` applied to a number: truncation toward zero. -/
def pyInt (q : Rat) : Int :=
  if 0 ≤ q then ⌊q⌋ else -⌊-q⌋

/-- Python float `%` has the sign of the divisor, so `x % 1.0` is the
fractional part `x - floor(x)`. -/
def pyMod1 (q : Rat) : Rat :=
  Int.fract q

/-- Shallow embedding of CPython `colorsys.rgb_to_hsv`, exact over the
rationals: `maxc = max(r, g, b)`, `minc = min(r, g, b)`, early return
`(0, 0, v)` when `minc == maxc`, otherwise `s = (maxc-minc)/maxc` and the
piecewise hue formula folded into `(h/6) % 1.0`. -/
def rgb_to_hsv (r g b : Rat) : Rat × Rat × Rat :=
  let maxc := max r (max g b)
  let minc := min r (min g b)
  let rangec := maxc - minc
  let v := maxc
  if minc = maxc then (0, 0, v)
  else
    let s := rangec / maxc
    let rc := (maxc - r) / rangec
    let gc := (maxc - g) / rangec
    let bc := (maxc - b) / rangec
    let h :=
      if r = maxc then bc - gc
      else if g = maxc then 2 + rc - bc
      else 4 + gc - rc
    (pyMod1 (h / 6), s, v)

/-- Shallow embedding of CPython `colorsys.hsv_to_rgb`, exact over the
rationals: `i = int(h*6.0) % 6`, `f = h*6.0 - int(h*6.0)`,
`p = v*(1-s)`, `q = v*(1-s*f)`, `t = v*(1-s*(1-f))`, with the six-way
case split on `i`. -/
def hsv_to_rgb (h s v : Rat) : Rat × Rat × Rat :=
  if s = 0 then (v, v, v)
  else
    let i0 := pyInt (h * 6)
    let f := h * 6 - (i0 : Rat)
    let p := v * (1 - s)
    let q := v * (1 - s * f)
    let t := v * (1 - s * (1 - f))
    let i := i0 % 6
    if i = 0 then (v, t, p)
    else if i = 1 then (q, v, p)
    else if i = 2 then (p, v, t)
    else if i = 3 then (p, q, v)
    else if i = 4 then (t, p, v)
    else (v, p, q)

/-- Shallow embedding of `ColorGenerator.generate_contrasting_color`
(src/rendering/color_manager.py lines 56-93).  The base RGB is converted to
HSV, the new HSV is computed per contrast level, and the result converted
back to RGB.  The two randomized branches take their random draws as
arguments (`coin` for `random.choice([0.4, 0.6])`, `jitter` for
`random.uniform(-0.1, 0.1)`); the `high` branch is deterministic. -/
def generate_contrasting_color (base : Rat × Rat × Rat)
    (contrast_level : String) (coin : Bool) (jitter : Rat) : Rat × Rat × Rat :=
  let hsv := rgb_to_hsv base.1 base.2.1 base.2.2
  let h := hsv.1
  let s := hsv.2.1
  let v := hsv.2.2
  if contrast_level = "high" then
    let new_h := pyMod1 (h + 0.5)
    let new_v := if v < 0.5 then (0.95 : Rat) else 0.15
    let new_s := max 0.1 (s * 0.5)
    hsv_to_rgb new_h new_s new_v
  else if contrast_level = "medium" then
    let new_h := pyMod1 (h + (if coin then (0.4 : Rat) else 0.6))
    let new_v := if v < 0.5 then (0.85 : Rat) else 0.25
    let new_s := max 0.1 (s * 0.6)
    hsv_to_rgb new_h new_s new_v
  else
    let new_h := pyMod1 (h + jitter)
    let new_v := if v < 0.5 then (0.75 : Rat) else 0.35
    let new_s := max 0.1 (s * 0.7)
    hsv_to_rgb new_h new_s new_v

/- ================= concrete sample states for evaluation ================= -/

/-- An empty store, as `init_database` leaves a fresh database. -/
def emptyDb : Db := ⟨[], [], 1, 1⟩

/-- A sample registered, still-pending source file. -/
def demoFile : StlFile := ⟨1, "cube.stl", "data/stl_files/cube.stl", 3, 84, "pending"⟩

/-- A second sample source file, discovered later, already completed. -/
def demoFileDone : StlFile := ⟨2, "vase.stl", "data/stl_files/vase.stl", 5, 90, "completed"⟩

/-- A sample job owning `demoFile`. -/
def demoJob : RenderJob := ⟨1, some 1, none, "[0.5]", "[0.9]", none, none, "pending", none⟩

/-- A sample store with one pending file, one completed file and one
pending job for the first file. -/
def demoDb : Db := ⟨[demoFile, demoFileDone], [demoJob], 3, 2⟩

/-- A collaborator environment whose compositing stage fails. -/
def demoRunFail : FileRun := ⟨.ok, .fail "ffmpeg exploded", .ok⟩

/-- A collaborator environment where every stage succeeds. -/
def demoRunOk : FileRun := ⟨.ok, .ok, .ok⟩

/-- A sample input file handed to `render_single_file`. -/
def demoInput : FileInput := ⟨"cube.stl", "data/stl_files/cube.stl", "cube", 84⟩

/-- The ORDER BY relation of `get_pending_files` is total. -/
instance : IsTotal StlFile (fun a b => a.added_date ≤ b.added_date) :=
  ⟨fun a b => Nat.le_total a.added_date b.added_date⟩

/-- The ORDER BY relation of `get_pending_files` is transitive. -/
instance : IsTrans StlFile (fun a b => a.added_date ≤ b.added_date) :=
  ⟨fun _ _ _ hab hbc => Nat.le_trans hab hbc⟩

/- ================================ theorems ================================ -/

/-- C1: for every `total_frames ≥ 6` the orbit planner emits its keyframes
in exactly the claimed order — keyframe 0 at frame 1 with rotation
(0,0,0); for each k = 1..6 a keyframe at frame `k * (total_frames // 6)`
holding the cumulative rotation after adding 60 degrees per listed axis in
segment order Z; X,Z; X; X,Y; Y; Y,Z; and a final keyframe at frame
`total_frames` with rotation exactly (360,360,360) degrees — and for
`total_frames = 750` the keyed frames are {1,125,250,375,500,625,750}. -/
theorem orbit_keyframes_exact (total_frames : Nat) (h : 6 ≤ total_frames) :
    animate_camera_orbit total_frames =
      [⟨1, 0, 0, 0⟩,
       ⟨1 * (total_frames / 6), 0, 0, 60⟩,
       ⟨2 * (total_frames / 6), 60, 0, 120⟩,
       ⟨3 * (total_frames / 6), 120, 0, 120⟩,
       ⟨4 * (total_frames / 6), 180, 60, 120⟩,
       ⟨5 * (total_frames / 6), 180, 120, 120⟩,
       ⟨6 * (total_frames / 6), 180, 180, 180⟩,
       ⟨total_frames, 360, 360, 360⟩]
    ∧ orbit_keyed_frames 750 = {1, 125, 250, 375, 500, 625, 750} := by
  refine ⟨?_, by decide⟩
  simp [animate_camera_orbit, Nat.mul_comm]

/-- Witness for C1 at `total_frames = 750`. -/
theorem orbit_keyframes_exact_witness :
    6 ≤ 750 ∧
    (animate_camera_orbit 750 =
      [⟨1, 0, 0, 0⟩,
       ⟨1 * (750 / 6), 0, 0, 60⟩,
       ⟨2 * (750 / 6), 60, 0, 120⟩,
       ⟨3 * (750 / 6), 120, 0, 120⟩,
       ⟨4 * (750 / 6), 180, 60, 120⟩,
       ⟨5 * (750 / 6), 180, 120, 120⟩,
       ⟨6 * (750 / 6), 180, 180, 180⟩,
       ⟨750, 360, 360, 360⟩]
    ∧ orbit_keyed_frames 750 = {1, 125, 250, 375, 500, 625, 750}) :=
  ⟨by decide, orbit_keyframes_exact 750 (by decide)⟩

/-- C2 counterexample: at `total_frames = 50` (not divisible by 6) the
planner emits 8 keyframe points and 8 distinct frames end up keyed, not 7 —
the forced final keyframe at frame 50 does not coincide with the segment-6
keyframe at frame 48. -/
theorem orbit_fifty_has_eight_points :
    (animate_camera_orbit 50).length = 8 ∧ (orbit_keyed_frames 50).card = 8 := by
  decide

/-- C2 (amended): for every `total_frames ≥ 6` the planner emits exactly 8
keyframe points — the initial point, 6 segment ends, and a forced final
keyframe pinned to frame `total_frames` with rotation exactly
(360,360,360) degrees — and when `total_frames` is not evenly divisible by
6 the forced final keyframe still lands at `total_frames`, strictly after
the segment-6 keyframe frame. -/
theorem orbit_eight_points (total_frames : Nat) (h : 6 ≤ total_frames) :
    (animate_camera_orbit total_frames).length = 8
    ∧ (animate_camera_orbit total_frames).getLast? =
        some ⟨total_frames, 360, 360, 360⟩
    ∧ (¬ (6 ∣ total_frames) → (total_frames / 6) * 6 < total_frames) := by
  refine ⟨by simp [animate_camera_orbit], by simp [animate_camera_orbit], fun hnd => ?_⟩
  omega

/-- Witness for C2 (amended) at `total_frames = 50`. -/
theorem orbit_eight_points_witness :
    6 ≤ 50 ∧
    ((animate_camera_orbit 50).length = 8
    ∧ (animate_camera_orbit 50).getLast? = some ⟨50, 360, 360, 360⟩
    ∧ (¬ (6 ∣ 50) → (50 / 6) * 6 < 50)) :=
  ⟨by decide, orbit_eight_points 50 (by decide)⟩

/-- C10: in the shipped configuration `TOTAL_FRAMES = VIDEO_DURATION * FPS
= 5 * 10 = 50` (not 750 as the adjacent source comment says), so the
orchestrated render plans the orbit with `total_frames = 50`, `fps = 10`,
`frames_per_segment = 50 // 6 = 8`, natural segment keyframes at frames
8, 16, 24, 32, 40, 48, and the forced final keyframe at frame 50. -/
theorem total_frames_is_fifty :
    TOTAL_FRAMES = VIDEO_DURATION * FPS
    ∧ VIDEO_DURATION = 5 ∧ FPS = 10
    ∧ TOTAL_FRAMES = 50 ∧ TOTAL_FRAMES ≠ 750
    ∧ TOTAL_FRAMES / 6 = 8
    ∧ (animate_camera_orbit TOTAL_FRAMES).map Keyframe.frame =
        [1, 8, 16, 24, 32, 40, 48, 50] := by
  decide

/-- Helper: the jobs-table UPDATE preserves row ids, so searching the
updated table for the job id finds exactly the updated image of the row
the original search found. -/
theorem find_update_job (jobs : List RenderJob) (job_id : Nat) (status : String)
    (out : Option String) (dur : Option Rat) (err : Option String) (now : Nat) :
    (jobs.map (fun j =>
      if j.id = job_id then
        { j with status := status, output_path := out,
                 render_date := some now, render_duration := dur,
                 error_message := err }
      else j)).find? (fun j => j.id = job_id)
    = (jobs.find? (fun j => j.id = job_id)).map (fun j =>
        { j with status := status, output_path := out,
                 render_date := some now, render_duration := dur,
                 error_message := err }) := by
  induction jobs with
  | nil => rfl
  | cons a l ih =>
    by_cases h : a.id = job_id
    · simp [h]
    · simp [h, ih]

/-- C3: updating an existing job to `completed` also sets the owning
source-file row (and only that row) to `completed`; updating it to
`failed` leaves every file row unchanged. -/
theorem update_job_file_cascade (db : Db) (job_id : Nat) (j : RenderJob)
    (out : Option String) (dur : Option Rat) (err : Option String) (now : Nat)
    (hfind : db.jobs.find? (fun jb => jb.id = job_id) = some j) :
    (update_render_job_apply db job_id "completed" out dur none now).files
      = (match j.stl_file_id with
         | none => db.files
         | some fid => db.files.map (fun f =>
             if f.id = fid then { f with status := "completed" } else f))
    ∧ (update_render_job_apply db job_id "failed" out dur err now).files
      = db.files := by
  constructor
  · simp only [update_render_job_apply]
    rw [find_update_job, hfind]
    simp
  · simp only [update_render_job_apply]
    simp

/-- Witness for C3 on the sample store (`demoJob` owns `demoFile`). -/
theorem update_job_file_cascade_witness :
    (update_render_job_apply demoDb 1 "completed" (some "out.mp4") (some 2) none 9).files
      = (match demoJob.stl_file_id with
         | none => demoDb.files
         | some fid => demoDb.files.map (fun f =>
             if f.id = fid then { f with status := "completed" } else f))
    ∧ (update_render_job_apply demoDb 1 "failed" (some "out.mp4") (some 2) (some "boom") 9).files
      = demoDb.files :=
  update_job_file_cascade demoDb 1 demoJob (some "out.mp4") (some 2) (some "boom") 9 (by decide)

/-- C4: registering a filename not yet present inserts exactly one record
(with the byte size passed at first-registration time) and returns the
fresh id; registering the same filename again is a no-op on the store and
returns the same id, regardless of the size observed at the second call. -/
theorem register_file_idempotent (db : Db) (name p1 p2 : String)
    (s1 s2 t1 t2 : Nat) (hfresh : ∀ f ∈ db.files, f.filename ≠ name) :
    (add_stl_file (add_stl_file db name p1 s1 t1).1 name p2 s2 t2).1
        = (add_stl_file db name p1 s1 t1).1
    ∧ (add_stl_file (add_stl_file db name p1 s1 t1).1 name p2 s2 t2).2
        = (add_stl_file db name p1 s1 t1).2
    ∧ (add_stl_file db name p1 s1 t1).2 = some db.next_file_id
    ∧ (add_stl_file db name p1 s1 t1).1.files
        = db.files ++ [⟨db.next_file_id, name, p1, t1, s1, "pending"⟩]
    ∧ ((add_stl_file db name p1 s1 t1).1.files.filter
        (fun f => f.filename = name)).length = 1 := by
  have hany : db.files.any (fun f => f.filename = name) = false := by
    simp only [List.any_eq_false, decide_eq_true_eq]
    exact fun f hf => hfresh f hf
  have hfind : db.files.find? (fun f => f.filename = name) = none := by
    simp only [List.find?_eq_none, decide_eq_true_eq]
    exact fun f hf => hfresh f hf
  have hfil : db.files.filter (fun f => f.filename = name) = [] := by
    simp only [List.filter_eq_nil_iff, decide_eq_true_eq]
    exact fun f hf => hfresh f hf
  have h1 : add_stl_file db name p1 s1 t1
      = ({ db with
            files := db.files ++ [⟨db.next_file_id, name, p1, t1, s1, "pending"⟩],
            next_file_id := db.next_file_id + 1 }, some db.next_file_id) := by
    simp [add_stl_file, hany, List.find?_append, hfind]
  have h2 : add_stl_file
      { db with
        files := db.files ++ [⟨db.next_file_id, name, p1, t1, s1, "pending"⟩],
        next_file_id := db.next_file_id + 1 } name p2 s2 t2
      = ({ db with
            files := db.files ++ [⟨db.next_file_id, name, p1, t1, s1, "pending"⟩],
            next_file_id := db.next_file_id + 1 }, some db.next_file_id) := by
    simp [add_stl_file, List.any_append, hany, List.find?_append, hfind]
  refine ⟨?_, ?_, ?_, ?_, ?_⟩
  · rw [h1]
    exact congrArg Prod.fst h2
  · rw [h1]
    exact congrArg Prod.snd h2
  · rw [h1]
  · rw [h1]
  · rw [h1]
    simp [List.filter_append, hfil]

/-- Witness for C4: register `cube.stl` twice into the empty store with
different observed sizes. -/
theorem register_file_idempotent_witness :
    (add_stl_file (add_stl_file emptyDb "cube.stl" "a" 84 3).1 "cube.stl" "b" 99 5).2
        = (add_stl_file emptyDb "cube.stl" "a" 84 3).2
    ∧ (add_stl_file emptyDb "cube.stl" "a" 84 3).1.files
        = emptyDb.files ++ [⟨emptyDb.next_file_id, "cube.stl", "a", 3, 84, "pending"⟩] :=
  ⟨(register_file_idempotent emptyDb "cube.stl" "a" "b" 84 99 3 5 (by decide)).2.1,
   (register_file_idempotent emptyDb "cube.stl" "a" "b" 84 99 3 5 (by decide)).2.2.2.1⟩

/-- C5 counterexample: updating a job id that exists nowhere in the store
(the store is empty) does not fail with a `StorageError` — the call
completes normally and leaves the stored state unchanged. -/
theorem update_job_unknown_id_counterexample :
    update_render_job emptyDb 1 "failed" none none none 7 = Except.ok emptyDb := by
  rfl

/-- C5 (amended): for every unknown job id, `update_render_job` is a
silent no-op — the jobs UPDATE matches no row and the conditional files
UPDATE matches no row either, so the call returns normally (never a
`StorageError`) with the stored state unchanged. -/
theorem update_job_unknown_id_silent (db : Db) (job_id : Nat) (status : String)
    (out : Option String) (dur : Option Rat) (err : Option String) (now : Nat)
    (h : db.jobs.find? (fun jb => jb.id = job_id) = none) :
    update_render_job db job_id status out dur err now = Except.ok db := by
  have hall : ∀ jb ∈ db.jobs, ¬(jb.id = job_id) := by
    simpa using h
  have hjobs : db.jobs.map (fun j =>
      if j.id = job_id then
        { j with status := status, output_path := out,
                 render_date := some now, render_duration := dur,
                 error_message := err }
      else j) = db.jobs := by
    have hmap := List.map_congr_left (l := db.jobs)
      (f := fun j : RenderJob =>
        if j.id = job_id then
          { j with status := status, output_path := out,
                   render_date := some now, render_duration := dur,
                   error_message := err }
        else j)
      (g := id) (fun a ha => by simp [hall a ha])
    simpa using hmap
  simp only [update_render_job, update_render_job_apply, hjobs, h]
  by_cases hs : status = "completed" <;> simp [hs]

/-- C6 counterexample: with one pending file in the store, supplying the
limit value 0 returns that file — the Python truthiness check `if limit:`
drops the LIMIT clause for 0, so the result is not capped at 0 rows. -/
theorem list_pending_zero_limit_counterexample :
    (get_pending_files demoDb (some 0)).length = 1
    ∧ ¬ ((get_pending_files demoDb (some 0)).length ≤ 0) := by
  decide

/-- C6 (amended): `get_pending_files` returns only files whose status is
pending, ordered by discovery time ascending; a supplied positive limit
caps the result count; an absent limit is unbounded; and a supplied limit
of 0 behaves like an absent limit (unbounded) because of the Python
truthiness check. -/
theorem list_pending_spec (db : Db) (limit : Option Int) :
    (∀ f ∈ get_pending_files db limit, f.status = "pending")
    ∧ List.Sorted (fun a b => a.added_date ≤ b.added_date)
        (get_pending_files db limit)
    ∧ (∀ n : Int, limit = some n → 0 < n →
        (get_pending_files db limit).length ≤ n.toNat)
    ∧ (limit = none → get_pending_files db limit = pending_rows db)
    ∧ (limit = some 0 → get_pending_files db limit = pending_rows db) := by
  have hsl : List.Sublist (get_pending_files db limit) (pending_rows db) := by
    rcases limit with _ | n
    · exact List.Sublist.refl _
    · simp only [get_pending_files]
      by_cases h0 : n = 0
      · simp [h0]
      · by_cases hneg : n < 0
        · simp [h0, hneg]
        · simp only [h0, hneg, if_false]
          exact List.take_sublist _ _
  have hmem : ∀ f ∈ pending_rows db, f.status = "pending" := by
    intro f hf
    have hf2 : f ∈ db.files.filter (fun f => f.status = "pending") :=
      (List.perm_insertionSort _ _).subset hf
    have := (List.mem_filter.mp hf2).2
    simpa using this
  have hsorted : List.Sorted (fun a b => a.added_date ≤ b.added_date)
      (pending_rows db) :=
    List.sorted_insertionSort _ _
  refine ⟨fun f hf => hmem f (hsl.subset hf), hsorted.sublist hsl, ?_, ?_, ?_⟩
  · intro n hn hpos
    subst hn
    simp only [get_pending_files]
    have h0 : ¬ (n = 0) := by omega
    have hneg : ¬ (n < 0) := by omega
    simp only [h0, hneg, if_false]
    exact List.length_take_le n.toNat (pending_rows db)
  · intro hn
    subst hn
    rfl
  · intro hn
    subst hn
    rfl

/-- Witness for C6 (amended): on the sample store with a positive supplied
limit of 1 the result is capped at one row, and the inner hypotheses of
the theorem are dischargeable at that input. -/
theorem list_pending_spec_witness :
    (get_pending_files demoDb (some 1)).length ≤ (1 : Int).toNat :=
  (list_pending_spec demoDb (some 1)).2.2.1 1 rfl (by decide)

/-- Helper: registering a file never touches the jobs table. -/
theorem add_stl_file_jobs (db : Db) (n p : String) (s t : Nat) :
    (add_stl_file db n p s t).1.jobs = db.jobs := by
  by_cases h : db.files.any (fun f => f.filename = n) <;>
    simp [add_stl_file, h]

/-- Helper: registering a file never advances the job id counter. -/
theorem add_stl_file_next_job (db : Db) (n p : String) (s t : Nat) :
    (add_stl_file db n p s t).1.next_job_id = db.next_job_id := by
  by_cases h : db.files.any (fun f => f.filename = n) <;>
    simp [add_stl_file, h]

/-- Helper: `render_single_file` reports success exactly when no lifecycle
stage failed. -/
theorem render_result_some (db : Db) (inp : FileInput) (oc bc : String)
    (run : FileRun) (now : Nat) (dur : Rat) :
    (render_single_file db inp oc bc run now dur).2.isSome
      = (first_failure run).isNone := by
  cases hf : first_failure run <;> simp [render_single_file, hf]

/-- Helper: the `process_queue` fold visits every pending row and its
success count adds one per fully successful file, independent of the
failures of the other files. -/
theorem process_fold_count (env : String → FileRun)
    (pal : String → String × String) (now : Nat) (dur : Rat) :
    ∀ (l : List StlFile) (db : Db) (c : Nat),
      (l.foldl (process_step env pal now dur) (db, c)).2
        = c + (l.filter (fun f => (first_failure (env f.filepath)).isNone)).length := by
  intro l
  induction l with
  | nil => intro db c; simp
  | cons a l ih =>
    intro db c
    simp only [List.foldl_cons, process_step]
    rw [ih]
    rw [render_result_some]
    cases hf : first_failure (env a.filepath) <;>
      simp [List.filter_cons, hf]
    omega

/-- C8: a failure at any lifecycle stage (render, compositing, audio
muxing) of one file is caught at the orchestrator boundary — the job
created for the file is persisted as failed with the captured error
message and the single-file entry point reports the failure by returning
`none` instead of raising — and the batch loop still processes every
pending file, its success count depending only on each file's own run. -/
theorem failure_isolation :
    (∀ (db : Db) (inp : FileInput) (oc bc : String) (run : FileRun)
       (now : Nat) (dur : Rat) (msg : String),
      first_failure run = some msg →
        (render_single_file db inp oc bc run now dur).2 = none
        ∧ ∃ jb ∈ (render_single_file db inp oc bc run now dur).1.jobs,
            jb.id = db.next_job_id ∧ jb.status = "failed"
            ∧ jb.error_message = some msg)
    ∧ (∀ (db : Db) (limit : Option Int) (env : String → FileRun)
         (pal : String → String × String) (now : Nat) (dur : Rat),
        (process_queue db limit env pal now dur).2
          = ((get_pending_files db limit).filter
              (fun f => (first_failure (env f.filepath)).isNone)).length) := by
  constructor
  · intro db inp oc bc run now dur msg hf
    refine ⟨by simp [render_single_file, hf], ?_⟩
    simp only [render_single_file, hf, create_render_job, update_render_job_apply]
    refine ⟨⟨db.next_job_id,
             (add_stl_file db inp.filename inp.filepath inp.size now).2,
             none, oc, bc, some now, none, "failed", some msg⟩, ?_, rfl, rfl, rfl⟩
    rw [List.mem_map]
    refine ⟨⟨(add_stl_file db inp.filename inp.filepath inp.size now).1.next_job_id,
             (add_stl_file db inp.filename inp.filepath inp.size now).2,
             none, oc, bc, none, none, "pending", none⟩,
            List.mem_append_right _ (List.mem_singleton_self _), ?_⟩
    simp [add_stl_file_next_job]
  · intro db limit env pal now dur
    simp only [process_queue]
    rw [process_fold_count]
    simp

/-- Witness for C8: on the sample store, a compositing failure yields a
`none` result with a failed job carrying the message, and the batch count
equation holds for an all-success environment. -/
theorem failure_isolation_witness :
    ((render_single_file demoDb demoInput "o" "b" demoRunFail 9 2).2 = none
      ∧ ∃ jb ∈ (render_single_file demoDb demoInput "o" "b" demoRunFail 9 2).1.jobs,
          jb.id = demoDb.next_job_id ∧ jb.status = "failed"
          ∧ jb.error_message = some "ffmpeg exploded")
    ∧ (process_queue demoDb none (fun _ => demoRunOk) (fun _ => ("o", "b")) 9 2).2
        = ((get_pending_files demoDb none).filter
            (fun f => (first_failure ((fun _ => demoRunOk) f.filepath)).isNone)).length :=
  ⟨failure_isolation.1 demoDb demoInput "o" "b" demoRunFail 9 2 "ffmpeg exploded" rfl,
   failure_isolation.2 demoDb none (fun _ => demoRunOk) (fun _ => ("o", "b")) 9 2⟩

/-- C9: when the audio asset directory holds no file with extension .mp3,
.wav or .m4a, `add_random_audio` copies the pre-audio composited video
verbatim to the final output path and returns that path, raising no
error. -/
theorem audio_passthrough (video_path output_path : String)
    (listing : List String) (pick : Nat) (ffmpeg_run : Except String Unit)
    (h : ∀ f ∈ listing,
      f.endsWith ".mp3" = false ∧ f.endsWith ".wav" = false
      ∧ f.endsWith ".m4a" = false) :
    add_random_audio video_path output_path listing pick ffmpeg_run
      = Except.ok (output_path, MuxOutcome.copied video_path output_path) := by
  have h1 : listing.filter (fun f => f.endsWith ".mp3") = [] := by
    simp only [List.filter_eq_nil_iff]
    intro f hf
    simp [(h f hf).1]
  have h2 : listing.filter (fun f => f.endsWith ".wav") = [] := by
    simp only [List.filter_eq_nil_iff]
    intro f hf
    simp [(h f hf).2.1]
  have h3 : listing.filter (fun f => f.endsWith ".m4a") = [] := by
    simp only [List.filter_eq_nil_iff]
    intro f hf
    simp [(h f hf).2.2]
  simp [add_random_audio, h1, h2, h3]

/-- Witness for C9: an empty audio asset directory. -/
theorem audio_passthrough_witness :
    add_random_audio "cube_temp.mp4" "cube.mp4" [] 0 (Except.ok ())
      = Except.ok ("cube.mp4", MuxOutcome.copied "cube_temp.mp4" "cube.mp4") :=
  audio_passthrough "cube_temp.mp4" "cube.mp4" [] 0 (Except.ok ())
    (by simp)

/-- Witness for C5 (amended): job id 99 exists nowhere in the sample
store. -/
theorem update_job_unknown_id_silent_witness :
    update_render_job demoDb 99 "completed" none none none 4 = Except.ok demoDb :=
  update_job_unknown_id_silent demoDb 99 "completed" none none none 4 (by decide)


/-- Round-trip helper, hue sector 0: converting the triple `(v, t, p)` back to HSV recovers `(f/6, s, v)`. -/
theorem rgb_hsv_seg0 (s v f : Rat) (hs0 : 0 < s) (hs1 : s ≤ 1) (hv : 0 < v)
    (hf0 : 0 ≤ f) (hf1 : f < 1) :
    rgb_to_hsv v (v * (1 - s * (1 - f))) (v * (1 - s)) = (f / 6, s, v) := by
  have hvs : v * s ≠ 0 := by positivity
  have hpt : v * (1 - s) ≤ v * (1 - s * (1 - f)) := by
    nlinarith [mul_nonneg (mul_nonneg hv.le hs0.le) hf0]
  have htv : v * (1 - s * (1 - f)) ≤ v := by
    nlinarith [mul_nonneg (mul_nonneg hv.le hs0.le) (by linarith : (0:Rat) ≤ 1 - f)]
  have hpv : v * (1 - s) < v := by nlinarith [mul_pos hv hs0]
  have hne : v * (1 - s) ≠ v := ne_of_lt hpv
  simp only [rgb_to_hsv]
  rw [max_eq_left hpt, max_eq_left htv, min_eq_right hpt, min_eq_right hpv.le]
  rw [if_neg hne, if_pos rfl]
  have hb : v - v * (1 - s) = v * s := by ring
  have hg : v - v * (1 - s * (1 - f)) = v * s * (1 - f) := by ring
  rw [hb, hg, div_self hvs, mul_div_cancel_left₀ _ hvs, mul_div_cancel_left₀ s (ne_of_gt hv)]
  have hf' : (1 : Rat) - (1 - f) = f := by ring
  rw [hf']
  simp only [pyMod1]
  rw [Int.fract_eq_self.mpr ⟨by positivity, by linarith⟩]

/-- Round-trip helper, hue sector 1: converting the triple `(q, v, p)` back to HSV recovers `((1+f)/6, s, v)` (including the boundary `f = 0`, where `q = v` and the red-is-max branch of `rgb_to_hsv` is taken instead). -/
theorem rgb_hsv_seg1 (s v f : Rat) (hs0 : 0 < s) (hs1 : s ≤ 1) (hv : 0 < v)
    (hf0 : 0 ≤ f) (hf1 : f < 1) :
    rgb_to_hsv (v * (1 - s * f)) v (v * (1 - s)) = ((1 + f) / 6, s, v) := by
  have hvs : v * s ≠ 0 := by positivity
  have hpv : v * (1 - s) < v := by nlinarith [mul_pos hv hs0]
  have hqv : v * (1 - s * f) ≤ v := by
    nlinarith [mul_nonneg (mul_nonneg hv.le hs0.le) hf0]
  have hpq : v * (1 - s) ≤ v * (1 - s * f) := by
    nlinarith [mul_nonneg (mul_nonneg hv.le hs0.le) (by linarith : (0:Rat) ≤ 1 - f)]
  have hne : v * (1 - s) ≠ v := ne_of_lt hpv
  have hb : v - v * (1 - s) = v * s := by ring
  simp only [rgb_to_hsv]
  rw [max_eq_left hpv.le, max_eq_right hqv, min_eq_right hpv.le, min_eq_right hpq]
  rw [if_neg hne]
  by_cases hf : f = 0
  · subst hf
    rw [if_pos (by ring)]
    rw [hb, div_self hvs, mul_div_cancel_left₀ s (ne_of_gt hv), sub_self, zero_div, sub_zero]
    simp only [pyMod1]
    rw [Int.fract_eq_self.mpr ⟨by norm_num, by norm_num⟩]
    norm_num
  · have hqv' : v * (1 - s * f) < v := by
      nlinarith [mul_pos (mul_pos hv hs0) (lt_of_le_of_ne hf0 (Ne.symm hf))]
    rw [if_neg (ne_of_lt hqv'), if_pos rfl]
    have hq : v - v * (1 - s * f) = v * s * f := by ring
    rw [hb, hq, div_self hvs, mul_div_cancel_left₀ _ hvs, mul_div_cancel_left₀ s (ne_of_gt hv)]
    have h2 : (2:Rat) + f - 1 = 1 + f := by ring
    rw [h2]
    simp only [pyMod1]
    rw [Int.fract_eq_self.mpr ⟨by positivity, by linarith⟩]

/-- Round-trip helper, hue sector 2: converting the triple `(p, v, t)` back to HSV recovers `((2+f)/6, s, v)`. -/
theorem rgb_hsv_seg2 (s v f : Rat) (hs0 : 0 < s) (hs1 : s ≤ 1) (hv : 0 < v)
    (hf0 : 0 ≤ f) (hf1 : f < 1) :
    rgb_to_hsv (v * (1 - s)) v (v * (1 - s * (1 - f))) = ((2 + f) / 6, s, v) := by
  have hvs : v * s ≠ 0 := by positivity
  have hpv : v * (1 - s) < v := by nlinarith [mul_pos hv hs0]
  have htv : v * (1 - s * (1 - f)) ≤ v := by
    nlinarith [mul_nonneg (mul_nonneg hv.le hs0.le) (by linarith : (0:Rat) ≤ 1 - f)]
  have hpt : v * (1 - s) ≤ v * (1 - s * (1 - f)) := by
    nlinarith [mul_nonneg (mul_nonneg hv.le hs0.le) hf0]
  have hne : v * (1 - s) ≠ v := ne_of_lt hpv
  have hb : v - v * (1 - s) = v * s := by ring
  have hg : v - v * (1 - s * (1 - f)) = v * s * (1 - f) := by ring
  simp only [rgb_to_hsv]
  rw [max_eq_left htv, max_eq_right hpv.le, min_eq_right htv, min_eq_left hpt]
  rw [if_neg hne, if_neg hne, if_pos rfl]
  rw [hb, hg, div_self hvs, mul_div_cancel_left₀ _ hvs, mul_div_cancel_left₀ s (ne_of_gt hv)]
  have h2 : (2:Rat) + 1 - (1 - f) = 2 + f := by ring
  rw [h2]
  simp only [pyMod1]
  rw [Int.fract_eq_self.mpr ⟨by positivity, by linarith⟩]

/-- Round-trip helper, hue sector 3: converting the triple `(p, q, v)` back to HSV recovers `((3+f)/6, s, v)` (including the boundary `f = 0`, where `q = v` and the green-is-max branch is taken instead). -/
theorem rgb_hsv_seg3 (s v f : Rat) (hs0 : 0 < s) (hs1 : s ≤ 1) (hv : 0 < v)
    (hf0 : 0 ≤ f) (hf1 : f < 1) :
    rgb_to_hsv (v * (1 - s)) (v * (1 - s * f)) v = ((3 + f) / 6, s, v) := by
  have hvs : v * s ≠ 0 := by positivity
  have hpv : v * (1 - s) < v := by nlinarith [mul_pos hv hs0]
  have hqv : v * (1 - s * f) ≤ v := by
    nlinarith [mul_nonneg (mul_nonneg hv.le hs0.le) hf0]
  have hpq : v * (1 - s) ≤ v * (1 - s * f) := by
    nlinarith [mul_nonneg (mul_nonneg hv.le hs0.le) (by linarith : (0:Rat) ≤ 1 - f)]
  have hne : v * (1 - s) ≠ v := ne_of_lt hpv
  have hb : v - v * (1 - s) = v * s := by ring
  have hq : v - v * (1 - s * f) = v * s * f := by ring
  simp only [rgb_to_hsv]
  rw [max_eq_right hqv, max_eq_right hpv.le, min_eq_left hqv, min_eq_left hpq]
  rw [if_neg hne, if_neg hne]
  by_cases hf : f = 0
  · subst hf
    rw [if_pos (by ring)]
    rw [hb, div_self hvs, mul_div_cancel_left₀ s (ne_of_gt hv), sub_self, zero_div, sub_zero]
    simp only [pyMod1]
    rw [Int.fract_eq_self.mpr ⟨by norm_num, by norm_num⟩]
    norm_num
  · have hqv' : v * (1 - s * f) < v := by
      nlinarith [mul_pos (mul_pos hv hs0) (lt_of_le_of_ne hf0 (Ne.symm hf))]
    rw [if_neg (ne_of_lt hqv')]
    rw [hb, hq, div_self hvs, mul_div_cancel_left₀ _ hvs, mul_div_cancel_left₀ s (ne_of_gt hv)]
    have h4 : (4:Rat) + f - 1 = 3 + f := by ring
    rw [h4]
    simp only [pyMod1]
    rw [Int.fract_eq_self.mpr ⟨by positivity, by linarith⟩]

/-- Round-trip helper, hue sector 4: converting the triple `(t, p, v)` back to HSV recovers `((4+f)/6, s, v)`. -/
theorem rgb_hsv_seg4 (s v f : Rat) (hs0 : 0 < s) (hs1 : s ≤ 1) (hv : 0 < v)
    (hf0 : 0 ≤ f) (hf1 : f < 1) :
    rgb_to_hsv (v * (1 - s * (1 - f))) (v * (1 - s)) v = ((4 + f) / 6, s, v) := by
  have hvs : v * s ≠ 0 := by positivity
  have hpv : v * (1 - s) < v := by nlinarith [mul_pos hv hs0]
  have htv' : v * (1 - s * (1 - f)) < v := by
    nlinarith [mul_pos (mul_pos hv hs0) (by linarith : (0:Rat) < 1 - f)]
  have hpt : v * (1 - s) ≤ v * (1 - s * (1 - f)) := by
    nlinarith [mul_nonneg (mul_nonneg hv.le hs0.le) hf0]
  have hne : v * (1 - s) ≠ v := ne_of_lt hpv
  have hb : v - v * (1 - s) = v * s := by ring
  have hg : v - v * (1 - s * (1 - f)) = v * s * (1 - f) := by ring
  simp only [rgb_to_hsv]
  rw [max_eq_right hpv.le, max_eq_right htv'.le, min_eq_left hpv.le, min_eq_right hpt]
  rw [if_neg hne, if_neg (ne_of_lt htv'), if_neg hne]
  rw [hb, hg, div_self hvs, mul_div_cancel_left₀ _ hvs, mul_div_cancel_left₀ s (ne_of_gt hv)]
  have h4 : (4:Rat) + 1 - (1 - f) = 4 + f := by ring
  rw [h4]
  simp only [pyMod1]
  rw [Int.fract_eq_self.mpr ⟨by positivity, by linarith⟩]

/-- Round-trip helper, hue sector 5: converting the triple `(v, p, q)` back to HSV recovers `((5+f)/6, s, v)`, the raw hue formula giving `f - 1` whose fractional part after division by 6 wraps to `(5+f)/6`. -/
theorem rgb_hsv_seg5 (s v f : Rat) (hs0 : 0 < s) (hs1 : s ≤ 1) (hv : 0 < v)
    (hf0 : 0 ≤ f) (hf1 : f < 1) :
    rgb_to_hsv v (v * (1 - s)) (v * (1 - s * f)) = ((5 + f) / 6, s, v) := by
  have hvs : v * s ≠ 0 := by positivity
  have hpv : v * (1 - s) < v := by nlinarith [mul_pos hv hs0]
  have hqv : v * (1 - s * f) ≤ v := by
    nlinarith [mul_nonneg (mul_nonneg hv.le hs0.le) hf0]
  have hpq : v * (1 - s) ≤ v * (1 - s * f) := by
    nlinarith [mul_nonneg (mul_nonneg hv.le hs0.le) (by linarith : (0:Rat) ≤ 1 - f)]
  have hne : v * (1 - s) ≠ v := ne_of_lt hpv
  have hb : v - v * (1 - s) = v * s := by ring
  have hq : v - v * (1 - s * f) = v * s * f := by ring
  simp only [rgb_to_hsv]
  rw [max_eq_right hpq, max_eq_left hqv, min_eq_left hpq, min_eq_right hpv.le]
  rw [if_neg hne, if_pos rfl]
  rw [hb, hq, div_self hvs, mul_div_cancel_left₀ _ hvs, mul_div_cancel_left₀ s (ne_of_gt hv)]
  have hshift : (f - 1) / 6 = (5 + f) / 6 - ((1 : Int) : Rat) := by
    push_cast
    ring
  rw [hshift]
  simp only [pyMod1]
  rw [Int.fract_sub_int, Int.fract_eq_self.mpr ⟨by positivity, by linarith⟩]

/-- The colorsys conversions are mutually inverse on the domain the contrast generator uses: for hue in `[0,1)`, saturation in `(0,1]` and positive value, `rgb_to_hsv` recovers exactly the HSV triple that `hsv_to_rgb` was applied to. -/
theorem hsv_to_rgb_roundtrip (h s v : Rat) (hh0 : 0 ≤ h) (hh1 : h < 1)
    (hs0 : 0 < s) (hs1 : s ≤ 1) (hv : 0 < v) :
    rgb_to_hsv (hsv_to_rgb h s v).1 (hsv_to_rgb h s v).2.1 (hsv_to_rgb h s v).2.2
      = (h, s, v) := by
  have hs0' : s ≠ 0 := ne_of_gt hs0
  have hone : (0:Rat) ≤ h * 6 := by positivity
  have hfl0 : 0 ≤ ⌊h * 6⌋ := Int.floor_nonneg.mpr hone
  have hfl5 : ⌊h * 6⌋ < 6 := by
    apply Int.floor_lt.mpr
    push_cast
    linarith
  have hfle : ((⌊h * 6⌋ : Int) : Rat) ≤ h * 6 := Int.floor_le _
  have hflt : h * 6 < ((⌊h * 6⌋ : Int) : Rat) + 1 := Int.lt_floor_add_one _
  have hcases : ⌊h * 6⌋ = 0 ∨ ⌊h * 6⌋ = 1 ∨ ⌊h * 6⌋ = 2 ∨ ⌊h * 6⌋ = 3
      ∨ ⌊h * 6⌋ = 4 ∨ ⌊h * 6⌋ = 5 := by omega
  rcases hcases with hk | hk | hk | hk | hk | hk
  · rw [hk] at hfle hflt
    have hc : hsv_to_rgb h s v
        = (v, v * (1 - s * (1 - (h * 6 - (((0:Int)):Rat)))), v * (1 - s)) := by
      simp only [hsv_to_rgb, if_neg hs0', pyInt, if_pos hone, hk,
        Int.emod_eq_of_lt (le_refl (0:Int)) (by decide : (0:Int) < 6)]
      simp
    rw [hc]
    rw [rgb_hsv_seg0 s v (h * 6 - (((0:Int)):Rat)) hs0 hs1 hv
      (by push_cast; linarith) (by push_cast at hflt ⊢; linarith)]
    have he : (h * 6 - (((0:Int)):Rat)) / 6 = h := by push_cast; ring
    rw [he]
  · rw [hk] at hfle hflt
    have hc : hsv_to_rgb h s v
        = (v * (1 - s * (h * 6 - (((1:Int)):Rat))), v, v * (1 - s)) := by
      simp only [hsv_to_rgb, if_neg hs0', pyInt, if_pos hone, hk,
        Int.emod_eq_of_lt (by decide : (0:Int) ≤ 1) (by decide : (1:Int) < 6)]
      simp
    rw [hc]
    rw [rgb_hsv_seg1 s v (h * 6 - (((1:Int)):Rat)) hs0 hs1 hv
      (by push_cast at hfle ⊢; linarith) (by push_cast at hflt ⊢; linarith)]
    have he : (1 + (h * 6 - (((1:Int)):Rat))) / 6 = h := by push_cast; ring
    rw [he]
  · rw [hk] at hfle hflt
    have hc : hsv_to_rgb h s v
        = (v * (1 - s), v, v * (1 - s * (1 - (h * 6 - (((2:Int)):Rat))))) := by
      simp only [hsv_to_rgb, if_neg hs0', pyInt, if_pos hone, hk,
        Int.emod_eq_of_lt (by decide : (0:Int) ≤ 2) (by decide : (2:Int) < 6)]
      simp
    rw [hc]
    rw [rgb_hsv_seg2 s v (h * 6 - (((2:Int)):Rat)) hs0 hs1 hv
      (by push_cast at hfle ⊢; linarith) (by push_cast at hflt ⊢; linarith)]
    have he : (2 + (h * 6 - (((2:Int)):Rat))) / 6 = h := by push_cast; ring
    rw [he]
  · rw [hk] at hfle hflt
    have hc : hsv_to_rgb h s v
        = (v * (1 - s), v * (1 - s * (h * 6 - (((3:Int)):Rat))), v) := by
      simp only [hsv_to_rgb, if_neg hs0', pyInt, if_pos hone, hk,
        Int.emod_eq_of_lt (by decide : (0:Int) ≤ 3) (by decide : (3:Int) < 6)]
      simp
    rw [hc]
    rw [rgb_hsv_seg3 s v (h * 6 - (((3:Int)):Rat)) hs0 hs1 hv
      (by push_cast at hfle ⊢; linarith) (by push_cast at hflt ⊢; linarith)]
    have he : (3 + (h * 6 - (((3:Int)):Rat))) / 6 = h := by push_cast; ring
    rw [he]
  · rw [hk] at hfle hflt
    have hc : hsv_to_rgb h s v
        = (v * (1 - s * (1 - (h * 6 - (((4:Int)):Rat)))), v * (1 - s), v) := by
      simp only [hsv_to_rgb, if_neg hs0', pyInt, if_pos hone, hk,
        Int.emod_eq_of_lt (by decide : (0:Int) ≤ 4) (by decide : (4:Int) < 6)]
      simp
    rw [hc]
    rw [rgb_hsv_seg4 s v (h * 6 - (((4:Int)):Rat)) hs0 hs1 hv
      (by push_cast at hfle ⊢; linarith) (by push_cast at hflt ⊢; linarith)]
    have he : (4 + (h * 6 - (((4:Int)):Rat))) / 6 = h := by push_cast; ring
    rw [he]
  · rw [hk] at hfle hflt
    have hc : hsv_to_rgb h s v
        = (v, v * (1 - s), v * (1 - s * (h * 6 - (((5:Int)):Rat)))) := by
      simp only [hsv_to_rgb, if_neg hs0', pyInt, if_pos hone, hk,
        Int.emod_eq_of_lt (by decide : (0:Int) ≤ 5) (by decide : (5:Int) < 6)]
      simp
    rw [hc]
    rw [rgb_hsv_seg5 s v (h * 6 - (((5:Int)):Rat)) hs0 hs1 hv
      (by push_cast at hfle ⊢; linarith) (by push_cast at hflt ⊢; linarith)]
    have he : (5 + (h * 6 - (((5:Int)):Rat))) / 6 = h := by push_cast; ring
    rw [he]

/-- The hue produced by `rgb_to_hsv` always lies in `[0,1)` (it is a fractional part; the achromatic branch returns 0). -/
theorem rgb_to_hsv_hue_mem (r g b : Rat) :
    0 ≤ (rgb_to_hsv r g b).1 ∧ (rgb_to_hsv r g b).1 < 1 := by
  by_cases h : min r (min g b) = max r (max g b)
  · simp only [rgb_to_hsv, pyMod1, if_pos h]
    norm_num
  · simp only [rgb_to_hsv, pyMod1, if_neg h]
    split_ifs <;> exact ⟨Int.fract_nonneg _, Int.fract_lt_one _⟩

/-- For channels that are nonnegative, the saturation produced by `rgb_to_hsv` lies in `[0,1]`. -/
theorem rgb_to_hsv_sat_mem (r g b : Rat) (hr : 0 ≤ r) (hg : 0 ≤ g) (hb : 0 ≤ b) :
    0 ≤ (rgb_to_hsv r g b).2.1 ∧ (rgb_to_hsv r g b).2.1 ≤ 1 := by
  by_cases h : min r (min g b) = max r (max g b)
  · simp only [rgb_to_hsv, if_pos h]
    norm_num
  · have hminc : 0 ≤ min r (min g b) := le_min hr (le_min hg hb)
    have hle : min r (min g b) ≤ max r (max g b) :=
      le_trans (min_le_left _ _) (le_max_left _ _)
    have hlt : min r (min g b) < max r (max g b) := lt_of_le_of_ne hle h
    have hmax0 : 0 < max r (max g b) := lt_of_le_of_lt hminc hlt
    simp only [rgb_to_hsv, if_neg h]
    exact ⟨div_nonneg (by linarith) hmax0.le, by rw [div_le_one hmax0]; linarith⟩

/-- C7: for every base RGB color with channels in [0,1],
`generate_contrasting_color(base, 'high')` returns a color whose hue (as
extracted by `rgb_to_hsv`) equals the base hue plus 0.5 modulo 1.0, whose
value is 0.95 when the base value is below 0.5 and 0.15 otherwise (hence
always on the opposite side of 0.5 from the base value), and whose
saturation is `max(0.1, base saturation * 0.5)`. -/
theorem contrasting_high_spec (r g b : Rat) (coin : Bool) (jitter : Rat)
    (hr0 : 0 ≤ r) (hr1 : r ≤ 1) (hg0 : 0 ≤ g) (hg1 : g ≤ 1)
    (hb0 : 0 ≤ b) (hb1 : b ≤ 1) :
    rgb_to_hsv (generate_contrasting_color (r, g, b) "high" coin jitter).1
               (generate_contrasting_color (r, g, b) "high" coin jitter).2.1
               (generate_contrasting_color (r, g, b) "high" coin jitter).2.2
      = (pyMod1 ((rgb_to_hsv r g b).1 + 0.5),
         max 0.1 ((rgb_to_hsv r g b).2.1 * 0.5),
         if (rgb_to_hsv r g b).2.2 < 0.5 then (0.95 : Rat) else 0.15)
    ∧ ((rgb_to_hsv r g b).2.2 < 0.5 →
        0.5 < (rgb_to_hsv (generate_contrasting_color (r, g, b) "high" coin jitter).1
               (generate_contrasting_color (r, g, b) "high" coin jitter).2.1
               (generate_contrasting_color (r, g, b) "high" coin jitter).2.2).2.2)
    ∧ (¬ ((rgb_to_hsv r g b).2.2 < 0.5) →
        (rgb_to_hsv (generate_contrasting_color (r, g, b) "high" coin jitter).1
               (generate_contrasting_color (r, g, b) "high" coin jitter).2.1
               (generate_contrasting_color (r, g, b) "high" coin jitter).2.2).2.2 < 0.5) := by
  have hhue := rgb_to_hsv_hue_mem r g b
  have hsat := rgb_to_hsv_sat_mem r g b hr0 hg0 hb0
  have hgen : generate_contrasting_color (r, g, b) "high" coin jitter
      = hsv_to_rgb (pyMod1 ((rgb_to_hsv r g b).1 + 0.5))
                   (max 0.1 ((rgb_to_hsv r g b).2.1 * 0.5))
                   (if (rgb_to_hsv r g b).2.2 < 0.5 then (0.95 : Rat) else 0.15) := by
    simp only [generate_contrasting_color, if_true]
  have hnh0 : 0 ≤ pyMod1 ((rgb_to_hsv r g b).1 + 0.5) := Int.fract_nonneg _
  have hnh1 : pyMod1 ((rgb_to_hsv r g b).1 + 0.5) < 1 := Int.fract_lt_one _
  have hns0 : 0 < max 0.1 ((rgb_to_hsv r g b).2.1 * 0.5) :=
    lt_of_lt_of_le (by norm_num) (le_max_left _ _)
  have hns1 : max 0.1 ((rgb_to_hsv r g b).2.1 * 0.5) ≤ 1 := by
    apply max_le (by norm_num)
    nlinarith [hsat.2]
  have hnv0 : 0 < (if (rgb_to_hsv r g b).2.2 < 0.5 then (0.95 : Rat) else 0.15) := by
    split_ifs <;> norm_num
  have hrt := hsv_to_rgb_roundtrip _ _ _ hnh0 hnh1 hns0 hns1 hnv0
  rw [hgen, hrt]
  refine ⟨rfl, ?_, ?_⟩
  · intro hv
    rw [if_pos hv]
    norm_num
  · intro hv
    rw [if_neg hv]
    norm_num

/-- Witness for C7 at the pure red base color (1, 0, 0). -/
theorem contrasting_high_spec_witness :
    rgb_to_hsv (generate_contrasting_color (1, 0, 0) "high" true 0).1
               (generate_contrasting_color (1, 0, 0) "high" true 0).2.1
               (generate_contrasting_color (1, 0, 0) "high" true 0).2.2
      = (pyMod1 ((rgb_to_hsv 1 0 0).1 + 0.5),
         max 0.1 ((rgb_to_hsv 1 0 0).2.1 * 0.5),
         if (rgb_to_hsv 1 0 0).2.2 < 0.5 then (0.95 : Rat) else 0.15) :=
  (contrasting_high_spec 1 0 0 true 0 (by norm_num) (by norm_num) (by norm_num)
    (by norm_num) (by norm_num) (by norm_num)).1
